import Mathlib

set_option maxHeartbeats 1000000

/- Shallow embedding of lk_checkin.py (repository iszhangyt/lk-checkin):
the envelope decoder, the transport retry loop, the authentication fallback
chain, the user-info parser and the per-task check-in state machine of
do_checkin. -/

/-- JSON values as Python's json module yields them; numbers are restricted to
integers, which is all the payloads modelled here carry. -/
inductive Json where
  | null
  | bool (b : Bool)
  | num (n : Int)
  | str (s : String)
  | arr (xs : List Json)
  | obj (fields : List (String × Json))

/-- External stdlib codec operations (base64, zlib, json serialisation) that
lk_checkin.py calls but does not implement, abstracted over a byte type β.
A decoder returns none where the Python function would raise. -/
structure Codec (β : Type) where
  b64encode : β → String
  b64decode : String → Option β
  zlibCompress : β → β
  zlibDecompress : β → Option β
  jsonDumps : Json → β
  jsonLoads : β → Option Json

/-- decode_response (lk_checkin.py lines 79-95): when the input is a string,
attempt base64 decode, then zlib decompress, then JSON parse; if any step
fails the original input is returned unchanged (the except branch logs and
returns data); a non-string input is returned unchanged. -/
def decode_response {β : Type} (c : Codec β) (data : Json) : Json :=
  match data with
  | Json.str s =>
    match c.b64decode s with
    | none => data
    | some bs =>
      match c.zlibDecompress bs with
      | none => data
      | some bs2 =>
        match c.jsonLoads bs2 with
        | none => data
        | some v => v
  | _ => data

/-- Lookup of a key in a Python dict modelled as an association list
(d.get(k), returning None when absent). -/
def objFind (fs : List (String × Json)) (k : String) : Option Json :=
  (fs.find? (fun p => p.1 == k)).map (fun p => p.2)

/-- Replacement of the value at an existing key of a Python dict
(d[k] = v for a key already present). -/
def objSet (fs : List (String × Json)) (k : String) (v : Json) :
    List (String × Json) :=
  fs.map (fun p => if p.1 == k then (p.1, v) else p)

/-- Python truthiness of a JSON value (bool(x)). -/
def pyTruthy : Json → Bool
  | Json.null => false
  | Json.bool b => b
  | Json.num n => n != 0
  | Json.str s => !(s == "")
  | Json.arr xs => !xs.isEmpty
  | Json.obj fs => !fs.isEmpty

/-- Python equality of a JSON value with the int 0 (x == 0); note that in
Python False == 0 holds. -/
def pyEqIntZero : Json → Bool
  | Json.num n => n == 0
  | Json.bool b => !b
  | _ => false

/-- Whether the character sequence contains "data" as a substring, modelling
Python's `"data" in s` on a string. -/
def hasDataPrefix : List Char → Bool
  | 'd' :: 'a' :: 't' :: 'a' :: _ => true
  | _ => false

def containsDataSub : List Char → Bool
  | [] => false
  | c :: rest => hasDataPrefix (c :: rest) || containsDataSub rest

/-- Whether a JSON value equals the Python string "data" (element equality
used by `"data" in some_list`). -/
def isDataStr : Json → Bool
  | Json.str s => s == "data"
  | _ => false

/-- How each attempt of LKClient._post resolves once the HTTP POST was
issued: a requests.RequestException (timeout, connection error, bad HTTP
status), or a body that decodes as the base64+zlib envelope, or one whose
envelope decode fails but resp.json() succeeds, or one where both fail. -/
inductive BodyDecode where
  | envelope (v : Json)
  | plain (v : Json)
  | undecodable

inductive AttemptOutcome where
  | raised
  | ok (b : BodyDecode)

/-- The fix-up of lines 256-258: if "data" in result and the value is a
string, replace it with decode_response of it. On a non-dict result the
Python membership test or indexing raises (error ()), which the enclosing
try turns into a failed attempt; a string result uses substring membership
and raises on indexing when it holds. -/
def fixData {β : Type} (c : Codec β) (v : Json) : Except Unit Json :=
  match v with
  | Json.obj fs =>
    match objFind fs "data" with
    | some (Json.str s) =>
      Except.ok (Json.obj (objSet fs "data" (decode_response c (Json.str s))))
    | some _ => Except.ok v
    | none => Except.ok v
  | Json.arr xs => if xs.any isDataStr then Except.error () else Except.ok v
  | Json.str s => if containsDataSub s.toList then Except.error () else Except.ok v
  | _ => Except.error ()

/-- What one attempt of LKClient._post produces: some result when the body
was decoded (the envelope path or the resp.json() path with the data
fix-up), none when the attempt failed (network exception, undecodable body,
or a fix-up that raised) and the loop may retry. -/
def attemptResult {β : Type} (c : Codec β) : AttemptOutcome → Option Json
  | AttemptOutcome.raised => none
  | AttemptOutcome.ok (BodyDecode.envelope v) => some v
  | AttemptOutcome.ok (BodyDecode.plain v) =>
    match fixData c v with
    | Except.ok w => some w
    | Except.error _ => none
  | AttemptOutcome.ok BodyDecode.undecodable => none

/-- The retry loop body of LKClient._post (lines 233-275) over the
remaining attempt indices of range(retry): return the decoded result when
an attempt succeeds; when an attempt fails and it was the last one
(attempt == retry - 1) return None; otherwise retry; an exhausted range
falls through to the final return None. -/
def postLoop {β : Type} (c : Codec β) (attempts : Nat → AttemptOutcome)
    (retry : Nat) : List Nat → Option Json
  | [] => none
  | i :: rest =>
    match attemptResult c (attempts i) with
    | some r => some r
    | none => if i = retry - 1 then none else postLoop c attempts retry rest

/-- LKClient._post: run the attempt loop over range(retry). -/
def lk_post {β : Type} (c : Codec β) (attempts : Nat → AttemptOutcome)
    (retry : Nat) : Option Json :=
  postLoop c attempts retry (List.range retry)

/-- Number of loop iterations (HTTP attempts) the retry loop executes over
the remaining attempt indices. -/
def attemptsLoop {β : Type} (c : Codec β) (attempts : Nat → AttemptOutcome)
    (retry : Nat) : List Nat → Nat
  | [] => 0
  | i :: rest =>
    match attemptResult c (attempts i) with
    | some _ => 1
    | none => if i = retry - 1 then 1 else 1 + attemptsLoop c attempts retry rest

def lk_post_attempts {β : Type} (c : Codec β) (attempts : Nat → AttemptOutcome)
    (retry : Nat) : Nat :=
  attemptsLoop c attempts retry (List.range retry)

/-- Python str.split(sep) for a one-character separator: every occurrence
splits, "" yields [""], adjacent separators yield empty parts. -/
def splitOnChar (sep : Char) : List Char → List (List Char)
  | [] => [[]]
  | c :: rest =>
    let r := splitOnChar sep rest
    if c == sep then [] :: r
    else
      match r with
      | h :: t => (c :: h) :: t
      | [] => [[c]]

def pySplit (s : String) (sep : Char) : List String :=
  (splitOnChar sep s.toList).map (fun cs => String.mk cs)

/-- Whitespace as Python's int() strips it (ASCII subset). -/
def isPyWs (ch : Char) : Bool :=
  ch == ' ' || ch == '\t' || ch == '\n' || ch == '\r' || ch == '\x0B' || ch == '\x0C'

def digitVal (ch : Char) : Int := Int.ofNat (ch.toNat - 48)

/-- Digit loop of Python int(str) after the first digit: further digits, a
single underscore between digits, then optional trailing whitespace;
anything else fails (ValueError). -/
def pyUDecLoop : List Char → Int → Option Int
  | [], acc => some acc
  | ch :: rest, acc =>
    if ch.isDigit then pyUDecLoop rest (acc * 10 + digitVal ch)
    else if ch == '_' then
      match rest with
      | d :: rest2 =>
        if d.isDigit then pyUDecLoop rest2 (acc * 10 + digitVal d) else none
      | [] => none
    else if (ch :: rest).all isPyWs then some acc
    else none
termination_by cs _ => cs.length
decreasing_by all_goals (simp only [List.length_cons]; omega)

def pyUDec : List Char → Option Int
  | d :: rest => if d.isDigit then pyUDecLoop rest (digitVal d) else none
  | [] => none

/-- Python int(str): optional surrounding whitespace, optional sign, a
nonempty ASCII digit sequence with optional single underscores between
digits; none models ValueError. -/
def pyInt (s : String) : Option Int :=
  match s.toList.dropWhile isPyWs with
  | '+' :: rest => pyUDec rest
  | '-' :: rest => (pyUDec rest).map (fun n => -n)
  | cs => pyUDec cs

/-- Indexing result["k"] on a JSON value: a value only when the receiver is
a dict holding the key; otherwise Python raises (KeyError / TypeError). -/
def jIndex (v : Json) (k : String) : Option Json :=
  match v with
  | Json.obj fs => objFind fs k
  | _ => none

/-- How LKClient.get_user_info ends: a returned bool, or an exception
propagating out of it. -/
inductive UIOut where
  | ret (b : Bool)
  | raised
  deriving DecidableEq

/-- The field extraction of lines 294-298: result["data"], data["uid"],
data["nickname"], data["balance"]["coin"], data["level"]["exp"]; a missing
key or non-dict receiver raises. -/
def extractUserFields (fs : List (String × Json)) : UIOut × Bool :=
  match objFind fs "data" with
  | none => (UIOut.raised, true)
  | some data =>
    match jIndex data "uid", jIndex data "nickname",
          jIndex data "balance", jIndex data "level" with
    | some _, some _, some bal, some lev =>
      match jIndex bal "coin", jIndex lev "exp" with
      | some _, some _ => (UIOut.ret true, true)
      | _, _ => (UIOut.raised, true)
    | _, _, _, _ => (UIOut.raised, true)

/-- LKClient.get_user_info (lines 277-302) given the _post result it would
observe; the Bool records whether the network call (_post) happened. The
uid is parsed from security_key.split(":")[1] by an unguarded int(). -/
def get_user_info (security_key : String) (postRes : Option Json) :
    UIOut × Bool :=
  let parts := pySplit security_key ':'
  if 2 ≤ parts.length then
    match pyInt (parts.getD 1 "") with
    | none => (UIOut.raised, false)
    | some _ =>
      match postRes with
      | none => (UIOut.ret false, true)
      | some result =>
        if !(pyTruthy result) then (UIOut.ret false, true)
        else
          match result with
          | Json.obj fs =>
            match objFind fs "code" with
            | some v =>
              if pyEqIntZero v then extractUserFields fs
              else (UIOut.ret false, true)
            | none => (UIOut.ret false, true)
          | _ => (UIOut.raised, true)
  else (UIOut.ret false, false)

/-- Python truthiness of a string (if s:). -/
def strTruthy (s : String) : Bool := !(s == "")

/-- Python truthiness of login's Optional[str] result. -/
def optTruthy : Option String → Bool
  | some s => strTruthy s
  | none => false

/-- Observable calls of the authentication phase of do_checkin. -/
inductive AuthEvent where
  | loginCall
  | cacheWrite (user key : String)
  | userInfoCall (key : String)
  deriving DecidableEq

/-- The remote's behaviour during authentication: the result of the i-th
login(username, password) call of the run, and whether get_user_info
succeeds for a client built from a given security_key. -/
structure AuthEnv where
  login : Nat → Option String
  userInfoOk : String → Bool

/-- Lines 613-627 of do_checkin: the liveness check on a resolved
security_key, with the one re-login fallback. ev0 is the trace so far and
nlogin how many login calls happened during resolution. Returns the final
security_key on success, none on run failure. -/
def authLiveness (key username password : String) (env : AuthEnv)
    (ev0 : List AuthEvent) (nlogin : Nat) : Option String × List AuthEvent :=
  let ev1 := ev0 ++ [AuthEvent.userInfoCall key]
  if env.userInfoOk key then (some key, ev1)
  else if strTruthy username && strTruthy password then
    let r := env.login nlogin
    let ev2 := ev1 ++ [AuthEvent.loginCall]
    if optTruthy r then
      let k := r.getD ""
      let ev3 := ev2 ++ [AuthEvent.cacheWrite username k, AuthEvent.userInfoCall k]
      if env.userInfoOk k then (some k, ev3) else (none, ev3)
    else (none, ev2)
  else (none, ev1)

/-- The authentication phase of do_checkin (lines 581-627): resolve a
security_key (explicit config value, else cached, else fresh login, caching
it), then the liveness check with its re-login fallback. -/
def do_checkin_auth (cfgKey username password : String)
    (cached : Option String) (env : AuthEnv) :
    Option String × List AuthEvent :=
  if strTruthy cfgKey then
    authLiveness cfgKey username password env [] 0
  else if strTruthy username && strTruthy password then
    if optTruthy cached then
      authLiveness (cached.getD "") username password env [] 0
    else
      let r := env.login 0
      if optTruthy r then
        let k := r.getD ""
        authLiveness k username password env
          [AuthEvent.loginCall, AuthEvent.cacheWrite username k] 1
      else (none, [AuthEvent.loginCall])
  else (none, [])

/-- One remote task row of the first task-list fetch: (task id, status);
status 0 = incomplete, 1 = claimable, 2 = claimed. -/
def TaskItems := List (Nat × Int)

/-- The second task-list fetch before task 7: its items are unused there;
status is the overall completion field, None when the response lacks it. -/
structure TaskListData where
  items : List (Nat × Int)
  status : Option Int

/-- task_data.get("status", 2) if task_data else 2 (line 748). -/
def mainStatus : Option TaskListData → Int
  | some td => td.status.getD 2
  | none => 2

/-- The task_status dict of lines 640-642 (later items overwrite earlier)
read back with task_status.get(id, 2) (missing id counts as claimed). -/
def statusOf (items : List (Nat × Int)) (t : Nat) : Int :=
  match items.reverse.find? (fun p => p.1 == t) with
  | some p => p.2
  | none => 2

/-- One entry of task_results: (task_id, coin, exp, status_code) with
status_code one of "new", "done", "skip", "fail". -/
structure TaskResult where
  id : Nat
  coin : Int
  exp : Int
  code : String
  deriving DecidableEq

/-- Observable remote calls of the task phase of do_checkin, in order. -/
inductive Event where
  | claimReward (taskId : Nat)
  | addHistory (aid : Nat)
  | addCollection (aid : Nat)
  | likeArticle (aid : Nat)
  | useCoin (aid : Nat) (number : Int)
  | delCollection (aid : Nat)
  | getUserInfo
  | getTaskList
  deriving DecidableEq

/-- Results and trace of one task block. -/
structure Seg where
  results : List TaskResult
  events : List Event

/-- The remote's behaviour during the task phase: claim_reward result per
task id, whether add_collection succeeds (the only prerequisite whose
return value the orchestrator reads), the ignored success flags of the
other prerequisites, the mid-run user-info refresh before task 6 (fresh
coin and exp, none when the fetch fails and the client keeps its stale
values), the second task-list fetch, and the final user-info refresh. -/
structure TaskEnv where
  claim : Nat → Option (Int × Int)
  addHistoryOk : Bool
  addCollectionOk : Bool
  likeOk : Bool
  useCoinOk : Bool
  userInfo6 : Option (Int × Int)
  taskList2 : Option TaskListData
  userInfoFinal : Option (Int × Int)

/-- Task 8 block (lines 655-662): claim_reward(8) unconditionally; a failed
claim records "done". -/
def task8Run (r : Option (Int × Int)) : Seg :=
  { results := (match r with
      | some (c, e) => [⟨8, c, e, "new"⟩]
      | none => [⟨8, 0, 0, "done"⟩]),
    events := [Event.claimReward 8] }

/-- Task 1 block (lines 664-676): if status < 2, add_history when status is
0, then claim; a failed claim records nothing. -/
def task1Run (st : Int) (aid : Nat) (r : Option (Int × Int)) : Seg :=
  if st < 2 then
    { results := (match r with
        | some (c, e) => [⟨1, c, e, "new"⟩]
        | none => []),
      events := (if st = 0 then [Event.addHistory aid] else []) ++
        [Event.claimReward 1] }
  else { results := [⟨1, 0, 0, "done"⟩], events := [] }

/-- Task 2 block (lines 678-691): like task 1 with add_collection, whose
success is remembered in collected. -/
def task2Run (st : Int) (aid : Nat) (addOk : Bool) (r : Option (Int × Int)) :
    Seg × Bool :=
  if st < 2 then
    let res := match r with
      | some (c, e) => [(⟨2, c, e, "new"⟩ : TaskResult)]
      | none => []
    let seg : Seg :=
      { results := res,
        events := (if st = 0 then [Event.addCollection aid] else []) ++
          [Event.claimReward 2] }
    (seg, if st = 0 then addOk else false)
  else ({ results := [⟨2, 0, 0, "done"⟩], events := [] }, false)

/-- Task 3 block (lines 693-705): like task 1 with like_article. -/
def task3Run (st : Int) (aid : Nat) (r : Option (Int × Int)) : Seg :=
  if st < 2 then
    { results := (match r with
        | some (c, e) => [⟨3, c, e, "new"⟩]
        | none => []),
      events := (if st = 0 then [Event.likeArticle aid] else []) ++
        [Event.claimReward 3] }
  else { results := [⟨3, 0, 0, "done"⟩], events := [] }

/-- Task 5 block (lines 707-717): no prerequisite action, claim when
status < 2; a failed claim records nothing. -/
def task5Run (st : Int) (r : Option (Int × Int))  : Seg :=
  if st < 2 then
    { results := (match r with
        | some (c, e) => [⟨5, c, e, "new"⟩]
        | none => []),
      events := [Event.claimReward 5] }
  else { results := [⟨5, 0, 0, "done"⟩], events := [] }

/-- Task 6 block (lines 719-742): when status < 2 the client refreshes
user info (the stale coin and exp survive a failed refresh), then acts only
with coin >= 10: use_coin when status is 0, then claim; a failed claim
records "fail"; a low balance records "skip". Returns the block's segment
and the client's coin and exp afterwards. -/
def task6Run (st : Int) (aid : Nat) (coin exp : Int)
    (ui : Option (Int × Int)) (r : Option (Int × Int)) : Seg × Int × Int :=
  if st < 2 then
    let fresh : Int × Int := (match ui with
      | some (c, e) => (c, e)
      | none => (coin, exp))
    if 10 ≤ fresh.1 then
      let res : List TaskResult := match r with
        | some (c, e) => [⟨6, c, e, "new"⟩]
        | none => [⟨6, 0, 0, "fail"⟩]
      let seg : Seg :=
        { results := res,
          events := Event.getUserInfo ::
            ((if st = 0 then [Event.useCoin aid 10] else []) ++
              [Event.claimReward 6]) }
      (seg, fresh.1, fresh.2)
    else
      ({ results := [⟨6, 0, 0, "skip"⟩], events := [Event.getUserInfo] },
       fresh.1, fresh.2)
  else ({ results := [⟨6, 0, 0, "done"⟩], events := [] }, coin, exp)

/-- Task 7 block (lines 744-759): re-fetch the task list, read its overall
status (2 when the fetch fails or the field is missing), claim when it is
below 2; a failed claim records "fail". -/
def task7Run (tl2 : Option TaskListData) (r : Option (Int × Int)) : Seg :=
  if mainStatus tl2 < 2 then
    { results := (match r with
        | some (c, e) => [⟨7, c, e, "new"⟩]
        | none => [⟨7, 0, 0, "fail"⟩]),
      events := [Event.getTaskList, Event.claimReward 7] }
  else { results := [⟨7, 0, 0, "done"⟩], events := [Event.getTaskList] }

/-- Aggregated output of the task phase. -/
structure RunOutput where
  results : List TaskResult
  trace : List Event
  coinAfter : Int
  expAfter : Int

/-- The task phase of do_checkin (lines 649-793): the seven task blocks in
source order, then the cleanup (del_collection only when collected holds),
then the final user-info refresh for reporting. items is the first
task-list fetch's rows, aid the discovered article, coin0 and exp0 the
client's balances entering the phase. -/
def do_checkin_tasks (items : List (Nat × Int)) (aid : Nat)
    (coin0 exp0 : Int) (env : TaskEnv) : RunOutput :=
  let t8 := task8Run (env.claim 8)
  let t1 := task1Run (statusOf items 1) aid (env.claim 1)
  let t2c := task2Run (statusOf items 2) aid env.addCollectionOk (env.claim 2)
  let t3 := task3Run (statusOf items 3) aid (env.claim 3)
  let t5 := task5Run (statusOf items 5) (env.claim 5)
  let t6c := task6Run (statusOf items 6) aid coin0 exp0 env.userInfo6
    (env.claim 6)
  let t7 := task7Run env.taskList2 (env.claim 7)
  let cleanupEvents := if t2c.2 then [Event.delCollection aid] else []
  { results := t8.results ++ t1.results ++ t2c.1.results ++ t3.results ++
      t5.results ++ t6c.1.results ++ t7.results,
    trace := t8.events ++ t1.events ++ t2c.1.events ++ t3.events ++
      t5.events ++ t6c.1.events ++ t7.events ++ cleanupEvents ++
      [Event.getUserInfo],
    coinAfter := (match env.userInfoFinal with
      | some (c, _) => c
      | none => t6c.2.1),
    expAfter := (match env.userInfoFinal with
      | some (_, e) => e
      | none => t6c.2.2) }

/-- Prefix of a trace strictly before the first occurrence of an event. -/
def beforeFirst (tr : List Event) (e : Event) : List Event :=
  tr.takeWhile (fun x => !(x == e))

/- Helper lemmas. -/

/-- A concrete codec instance used to evaluate the transport loop at
concrete inputs. -/
def trivCodec : Codec Unit :=
  ⟨fun _ => "", fun _ => some (), fun b => b, fun b => some b,
   fun _ => (), fun _ => none⟩

lemma extractUserFields_snd (fs : List (String × Json)) :
    (extractUserFields fs).2 = true := by
  unfold extractUserFields
  split
  · rfl
  · split
    · split <;> rfl
    · rfl

lemma get_user_info_netcall_or_raise (key : String) (postRes : Option Json)
    (h : 2 ≤ (pySplit key ':').length) :
    (get_user_info key postRes).1 = UIOut.raised ∨
      (get_user_info key postRes).2 = true := by
  unfold get_user_info
  rw [if_pos h]
  rcases hpi : pyInt ((pySplit key ':').getD 1 "") with _ | u
  · simp
  · simp only
    rcases postRes with _ | result
    · simp
    · simp only
      by_cases ht : pyTruthy result
      · rw [if_neg (by simp [ht])]
        rcases result with _ | b | n | s | xs | fs
        · simp
        · simp
        · simp
        · simp
        · simp
        · simp only
          rcases hc : objFind fs "code" with _ | v
        
          · simp
          · simp only
            split
            · right; exact extractUserFields_snd fs
            · simp
      · rw [if_pos (by simp [ht])]
        simp

/-- C10: get_user_info returns the failure signal False without raising and
without any network call exactly when the security_key splits into fewer
than two colon-separated parts; whenever it has at least two parts and the
second is not an int() literal, the unguarded int conversion raises before
any network call and the exception propagates out. -/
theorem get_user_info_uid_parse (key : String) (postRes : Option Json) :
    (get_user_info key postRes = (UIOut.ret false, false) ↔
      (pySplit key ':').length < 2) ∧
    (2 ≤ (pySplit key ':').length →
      pyInt ((pySplit key ':').getD 1 "") = none →
      get_user_info key postRes = (UIOut.raised, false)) := by
  constructor
  · constructor
    · intro h
      by_contra hlen
      push_neg at hlen
      rcases get_user_info_netcall_or_raise key postRes hlen with h1 | h1
      · rw [h] at h1
        simp at h1
      · rw [h] at h1
        simp at h1
    · intro h
      unfold get_user_info
      rw [if_neg (by omega)]
  · intro hlen hpi
    unfold get_user_info
    rw [if_pos hlen, hpi]

/-- C10 witness: "a:b" has two parts and a non-numeric second part, so the
conversion raises with no network call; "ab" has one part, so False is
returned with no network call. -/
theorem get_user_info_uid_parse_w :
    get_user_info "a:b" none = (UIOut.raised, false) ∧
    get_user_info "ab" none = (UIOut.ret false, false) := by
  constructor
  · exact (get_user_info_uid_parse "a:b" none).2 (by decide) (by decide)
  · exact (get_user_info_uid_parse "ab" none).1.mpr (by decide)

/-- C9: decoding the envelope built by base64-encoding the zlib-compression
of the JSON serialisation of v returns v, for every JSON value v, given
that each stdlib stage inverts its encoder at the values involved (the
stdlib functions are external to the repository). -/
theorem decode_response_roundtrip {β : Type} (c : Codec β) (v : Json)
    (h1 : c.jsonLoads (c.jsonDumps v) = some v)
    (h2 : c.zlibDecompress (c.zlibCompress (c.jsonDumps v)) =
      some (c.jsonDumps v))
    (h3 : c.b64decode (c.b64encode (c.zlibCompress (c.jsonDumps v))) =
      some (c.zlibCompress (c.jsonDumps v))) :
    decode_response c
      (Json.str (c.b64encode (c.zlibCompress (c.jsonDumps v)))) = v := by
  simp [decode_response, h3, h2, h1]

/-- C9 witness: a concrete codec and value on which the three stage
round-trips hold definitionally. -/
theorem decode_response_roundtrip_w :
    decode_response
      (⟨fun _ => "payload", fun _ => some (), fun b => b, fun b => some b,
        fun _ => (), fun _ => some (Json.num 42)⟩ : Codec Unit)
      (Json.str "payload") = Json.num 42 :=
  decode_response_roundtrip _ (Json.num 42) rfl rfl rfl

lemma attemptsLoop_le_length {β : Type} (c : Codec β)
    (att : Nat → AttemptOutcome) (retry : Nat) :
    ∀ l : List Nat, attemptsLoop c att retry l ≤ l.length := by
  intro l
  induction l with
  | nil => simp [attemptsLoop]
  | cons i rest ih =>
    unfold attemptsLoop
    rcases attemptResult c (att i) with _ | r
    · simp only [List.length_cons]
      split
      · omega
      · omega
    · simp only [List.length_cons]
      omega

lemma postLoop_all_fail {β : Type} (c : Codec β)
    (att : Nat → AttemptOutcome) (retry : Nat) :
    ∀ l : List Nat, (∀ j ∈ l, attemptResult c (att j) = none) →
      postLoop c att retry l = none := by
  intro l
  induction l with
  | nil => intro _; rfl
  | cons i rest ih =>
    intro h
    have hfi := h i (by simp)
    unfold postLoop
    rw [hfi]
    show (if i = retry - 1 then none else postLoop c att retry rest) = none
    by_cases hi : i = retry - 1
    · rw [if_pos hi]
    · rw [if_neg hi]
      exact ih (fun j hj => h j (by simp [hj]))

lemma postLoop_first_success {β : Type} (c : Codec β)
    (att : Nat → AttemptOutcome) (retry : Nat) :
    ∀ n i k v, i ≤ k → k < i + n → i + n = retry →
      (∀ j, i ≤ j → j < k → attemptResult c (att j) = none) →
      attemptResult c (att k) = some v →
      postLoop c att retry (List.range' i n) = some v ∧
        attemptsLoop c att retry (List.range' i n) = k + 1 - i := by
  intro n
  induction n with
  | zero => intro i k v h1 h2 h3 hfail hk; omega
  | succ m ih =>
    intro i k v h1 h2 h3 hfail hk
    rcases Nat.eq_or_lt_of_le h1 with he | hlt
    · subst he
      rw [List.range'_succ]
      unfold postLoop attemptsLoop
      rw [hk]
      refine ⟨rfl, ?_⟩
      show (1 : Nat) = i + 1 - i
      omega
    · have hfi : attemptResult c (att i) = none := hfail i (le_refl i) hlt
      have hne : ¬ i = retry - 1 := by omega
      rw [List.range'_succ]
      unfold postLoop attemptsLoop
      rw [hfi]
      have hrec := ih (i + 1) k v (by omega) (by omega) (by omega)
        (fun j hj1 hj2 => hfail j (by omega) hj2) hk
      constructor
      · show (if i = retry - 1 then none
          else postLoop c att retry (List.range' (i + 1) m)) = some v
        rw [if_neg hne]
        exact hrec.1
      · show (if i = retry - 1 then 1
          else 1 + attemptsLoop c att retry (List.range' (i + 1) m)) = k + 1 - i
        rw [if_neg hne, hrec.2]
        omega

lemma attemptsLoop_mid_fail {β : Type} (c : Codec β)
    (att : Nat → AttemptOutcome) (retry : Nat) :
    ∀ n i m, m + 1 < attemptsLoop c att retry (List.range' i n) →
      attemptResult c (att (i + m)) = none := by
  intro n
  induction n with
  | zero => intro i m h; simp [attemptsLoop] at h
  | succ p ih =>
    intro i m h
    rw [List.range'_succ] at h
    unfold attemptsLoop at h
    rcases hia : attemptResult c (att i) with _ | r
    · rw [hia] at h
      change m + 1 < (if i = retry - 1 then 1
        else 1 + attemptsLoop c att retry (List.range' (i + 1) p)) at h
      by_cases hi : i = retry - 1
      · rw [if_pos hi] at h
        omega
      · rw [if_neg hi] at h
        rcases m with _ | m2
        · simpa using hia
        · have hrec := ih (i + 1) m2 (by omega)
          have he : i + 1 + m2 = i + (m2 + 1) := by omega
          rw [he] at hrec
          exact hrec
    · rw [hia] at h
      change m + 1 < 1 at h
      omega

/-- C7 counterexample: with every response undecodable (no network-level
failure anywhere) and retry = 3, the loop still performs all 3 attempts —
it retries on decode failures too, and returns None without raising. -/
theorem lk_post_retries_nonnetwork :
    lk_post_attempts trivCodec
      (fun _ => AttemptOutcome.ok BodyDecode.undecodable) 3 = 3 ∧
    (∀ i : Nat,
      (fun _ : Nat => AttemptOutcome.ok BodyDecode.undecodable) i ≠
        AttemptOutcome.raised) ∧
    lk_post trivCodec
      (fun _ => AttemptOutcome.ok BodyDecode.undecodable) 3 = none := by
  refine ⟨rfl, ?_, rfl⟩
  intro i h
  exact AttemptOutcome.noConfusion h

/-- C7 amended: the retry loop performs at most `retry` attempts; a retry
happens only after an attempt that failed (network-level exception or an
undecodable response body), never after a decoded payload — a decoded
payload is returned immediately whatever application-level code it carries;
when every attempt fails the result is None (no exception escapes). -/
theorem lk_post_retry_contract {β : Type} (c : Codec β)
    (att : Nat → AttemptOutcome) (retry : Nat) :
    (lk_post_attempts c att retry ≤ retry) ∧
    ((∀ i, i < retry → attemptResult c (att i) = none) →
      lk_post c att retry = none) ∧
    (∀ k v, k < retry →
      (∀ j, j < k → attemptResult c (att j) = none) →
      attemptResult c (att k) = some v →
      lk_post c att retry = some v ∧ lk_post_attempts c att retry = k + 1) ∧
    (∀ m, m + 1 < lk_post_attempts c att retry →
      attemptResult c (att m) = none) := by
  refine ⟨?_, ?_, ?_, ?_⟩
  · calc attemptsLoop c att retry (List.range retry) ≤
        (List.range retry).length := attemptsLoop_le_length c att retry _
      _ = retry := List.length_range retry
  · intro h
    exact postLoop_all_fail c att retry _
      (fun j hj => h j (by simpa using (List.mem_range.mp (by simpa using hj))))
  · intro k v hk hfail hres
    have := postLoop_first_success c att retry retry 0 k v (Nat.zero_le k)
      (by omega) (by omega) (fun j _ hj => hfail j hj) hres
    rw [← List.range_eq_range'] at this
    exact ⟨this.1, by rw [lk_post_attempts, this.2]; omega⟩
  · intro m h
    have := attemptsLoop_mid_fail c att retry retry 0 m
      (by rw [lk_post_attempts, List.range_eq_range'] at h; exact h)
    simpa using this

/-- C7 amended witness: first attempt raises at network level, second
returns a decoded envelope; the loop returns that payload after exactly two
attempts. -/
theorem lk_post_retry_contract_w :
    lk_post trivCodec
      (fun i => if i = 0 then AttemptOutcome.raised
        else AttemptOutcome.ok (BodyDecode.envelope (Json.num 7))) 3 =
      some (Json.num 7) ∧
    lk_post_attempts trivCodec
      (fun i => if i = 0 then AttemptOutcome.raised
        else AttemptOutcome.ok (BodyDecode.envelope (Json.num 7))) 3 = 2 := by
  have h := (lk_post_retry_contract trivCodec
    (fun i => if i = 0 then AttemptOutcome.raised
      else AttemptOutcome.ok (BodyDecode.envelope (Json.num 7))) 3).2.2.1
    1 (Json.num 7) (by omega)
    (fun j hj => by
      interval_cases j
      · rfl)
    rfl
  exact h

lemma do_checkin_auth_resolved (cfg u p : String) (cached : Option String)
    (env : AuthEnv) (key : String)
    (hkey : (strTruthy cfg = true ∧ key = cfg) ∨
      (strTruthy cfg = false ∧ strTruthy u = true ∧ strTruthy p = true ∧
        optTruthy cached = true ∧ key = cached.getD "")) :
    do_checkin_auth cfg u p cached env = authLiveness key u p env [] 0 := by
  rcases hkey with ⟨hc, hk⟩ | ⟨hc, hu, hp, hcache, hk⟩
  · subst hk
    unfold do_checkin_auth
    rw [if_pos hc]
  · subst hk
    unfold do_checkin_auth
    rw [if_neg (by simp [hc]), if_pos (by simp [hu, hp]), if_pos hcache]

/-- C6: when the resolved credential came from the explicit configuration
or from the cache and its liveness check fails, then with a username and
password available exactly one re-login happens; a fresh credential
replaces the old one (it is cached and a new client is checked once), the
run succeeding exactly when the fresh credential passes the liveness
retry; with no username/password, or a failed re-login, the run fails. -/
theorem auth_relogin_once (cfg u p : String) (cached : Option String)
    (env : AuthEnv) (key : String)
    (hkey : (strTruthy cfg = true ∧ key = cfg) ∨
      (strTruthy cfg = false ∧ strTruthy u = true ∧ strTruthy p = true ∧
        optTruthy cached = true ∧ key = cached.getD ""))
    (hlive : env.userInfoOk key = false) :
    ((strTruthy u = true ∧ strTruthy p = true) →
      ((do_checkin_auth cfg u p cached env).2.count AuthEvent.loginCall = 1 ∧
       (∀ k2, env.login 0 = some k2 → strTruthy k2 = true →
         (do_checkin_auth cfg u p cached env).2 =
           [AuthEvent.userInfoCall key, AuthEvent.loginCall,
            AuthEvent.cacheWrite u k2, AuthEvent.userInfoCall k2] ∧
         (do_checkin_auth cfg u p cached env).1 =
           (if env.userInfoOk k2 = true then some k2 else none)) ∧
       (optTruthy (env.login 0) = false →
         (do_checkin_auth cfg u p cached env).1 = none))) ∧
    ((strTruthy u = false ∨ strTruthy p = false) →
      (do_checkin_auth cfg u p cached env).1 = none ∧
      (do_checkin_auth cfg u p cached env).2.count AuthEvent.loginCall = 0) := by
  rw [do_checkin_auth_resolved cfg u p cached env key hkey]
  constructor
  · rintro ⟨hu, hp⟩
    refine ⟨?_, ?_, ?_⟩
    · unfold authLiveness
      rw [hlive]
      simp only [hu, hp, Bool.and_self, if_false, Bool.false_eq_true, if_true]
      rcases hr : env.login 0 with _ | k2
      · simp [optTruthy, List.count_cons]
      · by_cases h2 : strTruthy k2 = true
        · simp only [optTruthy, h2, if_true]
          split <;> simp [List.count_cons]
        · simp only [optTruthy, h2]
          simp [List.count_cons]
    · intro k2 hk2 htr
      unfold authLiveness
      rw [hlive, hk2]
      simp only [hu, hp, Bool.and_self, Bool.false_eq_true, if_false, if_true,
        optTruthy, htr, Option.getD_some]
      split <;> simp
    · intro hfail
      unfold authLiveness
      rw [hlive]
      simp [hu, hp, hfail]
  · intro hnup
    unfold authLiveness
    rw [hlive]
    have hand : (strTruthy u && strTruthy p) = false := by
      rcases hnup with h | h <;> simp [h]
    simp [hand, List.count_cons]

/-- C6 witness: an explicit credential "k" that fails liveness, with
username and password configured and a re-login yielding "k2" that passes
liveness: the run succeeds on the fresh credential after one login call. -/
theorem auth_relogin_once_w :
    (do_checkin_auth "k" "u" "p" none
      ⟨fun _ => some "k2", fun s => s == "k2"⟩).1 = some "k2" ∧
    (do_checkin_auth "k" "u" "p" none
      ⟨fun _ => some "k2", fun s => s == "k2"⟩).2.count
        AuthEvent.loginCall = 1 := by
  have h := auth_relogin_once "k" "u" "p" none
    ⟨fun _ => some "k2", fun s => s == "k2"⟩ "k"
    (Or.inl ⟨by decide, rfl⟩) (by decide)
  have ha := h.1 ⟨by decide, by decide⟩
  have hb := ha.2.1 "k2" rfl (by decide)
  refine ⟨?_, ha.1⟩
  rw [hb.2]
  decide

/-- Whether an auth event is a cache file write (cache_security_key, which
calls save_cache once). -/
def isCacheWrite : AuthEvent → Bool
  | AuthEvent.cacheWrite _ _ => true
  | _ => false

def isLoginCall : AuthEvent → Bool
  | AuthEvent.loginCall => true
  | _ => false

lemma authLiveness_events (key u p : String) (env : AuthEnv)
    (ev0 : List AuthEvent) (n : Nat) :
    (authLiveness key u p env ev0 n).2 =
        ev0 ++ [AuthEvent.userInfoCall key] ∨
      (authLiveness key u p env ev0 n).2 =
        ev0 ++ [AuthEvent.userInfoCall key, AuthEvent.loginCall] ∨
      ∃ k, (authLiveness key u p env ev0 n).2 =
        ev0 ++ [AuthEvent.userInfoCall key, AuthEvent.loginCall,
          AuthEvent.cacheWrite u k, AuthEvent.userInfoCall k] := by
  unfold authLiveness
  by_cases h1 : env.userInfoOk key = true
  · left
    simp [h1]
  · by_cases h2 : (strTruthy u && strTruthy p) = true
    · by_cases h3 : optTruthy (env.login n) = true
      · right; right
        refine ⟨(env.login n).getD "", ?_⟩
        by_cases h4 : env.userInfoOk ((env.login n).getD "") = true <;>
          simp [h1, h2, h3, h4]
      · right; left
        simp [h1, h2, h3]
    · left
      simp [h1, h2]

/-- C8 amended: in one run the session cache is written at most twice, and
no more often than login is called — each write immediately follows a
successful login call, and at most two login calls happen per run. -/
theorem auth_cache_write_bound (cfg u p : String) (cached : Option String)
    (env : AuthEnv) :
    (do_checkin_auth cfg u p cached env).2.countP isCacheWrite ≤
        (do_checkin_auth cfg u p cached env).2.countP isLoginCall ∧
      (do_checkin_auth cfg u p cached env).2.countP isLoginCall ≤ 2 := by
  unfold do_checkin_auth
  by_cases hc : strTruthy cfg = true
  · rw [if_pos hc]
    rcases authLiveness_events cfg u p env [] 0 with h | h | ⟨k, h⟩ <;>
      simp [h, List.countP_cons, isCacheWrite, isLoginCall]
  · rw [if_neg hc]
    by_cases hup : (strTruthy u && strTruthy p) = true
    · rw [if_pos hup]
      by_cases hca : optTruthy cached = true
      · rw [if_pos hca]
        rcases authLiveness_events (cached.getD "") u p env [] 0 with
            h | h | ⟨k, h⟩ <;>
          simp [h, List.countP_cons, isCacheWrite, isLoginCall]
      · rw [if_neg hca]
        by_cases hr : optTruthy (env.login 0) = true
        · simp only [hr, if_true]
          rcases authLiveness_events ((env.login 0).getD "") u p env
              [AuthEvent.loginCall,
                AuthEvent.cacheWrite u ((env.login 0).getD "")] 1 with
              h | h | ⟨k, h⟩ <;>
            simp [h, List.countP_cons, isCacheWrite, isLoginCall]
        · simp [hr, List.countP_cons, isCacheWrite, isLoginCall]
    · rw [if_neg hup]
      simp

/-- C8 counterexample: with no explicit key, no cache, a first login whose
credential fails the liveness check and a successful re-login, one run
writes the session cache twice (lines 603 and 620 both execute). -/
theorem auth_cache_written_twice :
    (do_checkin_auth "" "u" "p" none
      ⟨fun i => if i = 0 then some "k1" else some "k2",
       fun s => s == "k2"⟩).2.countP isCacheWrite = 2 := by
  decide

/-- The coin balance the task-6 block compares with the threshold: the
freshly fetched one when the refresh succeeded, the stale one otherwise. -/
def fresh6 (coin : Int) (ui : Option (Int × Int)) : Int :=
  match ui with
  | some (c, _) => c
  | none => coin

lemma task8Run_events (r : Option (Int × Int)) :
    (task8Run r).events = [Event.claimReward 8] := rfl

lemma task1Run_events (st : Int) (aid : Nat) (r : Option (Int × Int)) :
    (task1Run st aid r).events =
      if st < 2 then
        (if st = 0 then [Event.addHistory aid] else []) ++
          [Event.claimReward 1]
      else [] := by
  by_cases h : st < 2 <;> simp [task1Run, h]

lemma task2Run_events (st : Int) (aid : Nat) (addOk : Bool)
    (r : Option (Int × Int)) :
    (task2Run st aid addOk r).1.events =
      if st < 2 then
        (if st = 0 then [Event.addCollection aid] else []) ++
          [Event.claimReward 2]
      else [] := by
  by_cases h : st < 2 <;> simp [task2Run, h]

lemma task2Run_collected (st : Int) (aid : Nat) (addOk : Bool)
    (r : Option (Int × Int)) :
    (task2Run st aid addOk r).2 = if st = 0 then addOk else false := by
  by_cases h : st < 2
  · simp [task2Run, h]
  · have h0 : ¬ st = 0 := by omega
    simp [task2Run, h, h0]

lemma task3Run_events (st : Int) (aid : Nat) (r : Option (Int × Int)) :
    (task3Run st aid r).events =
      if st < 2 then
        (if st = 0 then [Event.likeArticle aid] else []) ++
          [Event.claimReward 3]
      else [] := by
  by_cases h : st < 2 <;> simp [task3Run, h]

lemma task5Run_events (st : Int) (r : Option (Int × Int)) :
    (task5Run st r).events =
      if st < 2 then [Event.claimReward 5] else [] := by
  by_cases h : st < 2 <;> simp [task5Run, h]

lemma task6Run_events (st : Int) (aid : Nat) (coin exp : Int)
    (ui : Option (Int × Int)) (r : Option (Int × Int)) :
    (task6Run st aid coin exp ui r).1.events =
      if st < 2 then
        (if 10 ≤ fresh6 coin ui then
          Event.getUserInfo ::
            ((if st = 0 then [Event.useCoin aid 10] else []) ++
              [Event.claimReward 6])
        else [Event.getUserInfo])
      else [] := by
  rcases ui with _ | ⟨c2, e2⟩
  · by_cases h : st < 2
    · by_cases h2 : (10 : Int) ≤ coin <;> simp [task6Run, fresh6, h, h2]
    · simp [task6Run, fresh6, h]
  · by_cases h : st < 2
    · by_cases h2 : (10 : Int) ≤ c2 <;> simp [task6Run, fresh6, h, h2]
    · simp [task6Run, fresh6, h]

lemma task7Run_events (tl2 : Option TaskListData) (r : Option (Int × Int)) :
    (task7Run tl2 r).events =
      if mainStatus tl2 < 2 then [Event.getTaskList, Event.claimReward 7]
      else [Event.getTaskList] := by
  by_cases h : mainStatus tl2 < 2 <;> simp [task7Run, h]

lemma task6Run_results (st : Int) (aid : Nat) (coin exp : Int)
    (ui : Option (Int × Int)) (r : Option (Int × Int)) :
    (task6Run st aid coin exp ui r).1.results =
      if st < 2 then
        (if 10 ≤ fresh6 coin ui then
          (match r with
            | some (c, e) => [(⟨6, c, e, "new"⟩ : TaskResult)]
            | none => [⟨6, 0, 0, "fail"⟩])
        else [⟨6, 0, 0, "skip"⟩])
      else [⟨6, 0, 0, "done"⟩] := by
  rcases ui with _ | ⟨c2, e2⟩
  · by_cases h : st < 2
    · by_cases h2 : (10 : Int) ≤ coin <;> simp [task6Run, fresh6, h, h2]
    · simp [task6Run, fresh6, h]
  · by_cases h : st < 2
    · by_cases h2 : (10 : Int) ≤ c2 <;> simp [task6Run, fresh6, h, h2]
    · simp [task6Run, fresh6, h]

lemma do_checkin_tasks_trace (items : List (Nat × Int)) (aid : Nat)
    (coin0 exp0 : Int) (env : TaskEnv) :
    (do_checkin_tasks items aid coin0 exp0 env).trace =
      (task8Run (env.claim 8)).events ++
      (task1Run (statusOf items 1) aid (env.claim 1)).events ++
      (task2Run (statusOf items 2) aid env.addCollectionOk
        (env.claim 2)).1.events ++
      (task3Run (statusOf items 3) aid (env.claim 3)).events ++
      (task5Run (statusOf items 5) (env.claim 5)).events ++
      (task6Run (statusOf items 6) aid coin0 exp0 env.userInfo6
        (env.claim 6)).1.events ++
      (task7Run env.taskList2 (env.claim 7)).events ++
      (if (task2Run (statusOf items 2) aid env.addCollectionOk
          (env.claim 2)).2 then [Event.delCollection aid] else []) ++
      [Event.getUserInfo] := rfl

lemma do_checkin_tasks_results (items : List (Nat × Int)) (aid : Nat)
    (coin0 exp0 : Int) (env : TaskEnv) :
    (do_checkin_tasks items aid coin0 exp0 env).results =
      (task8Run (env.claim 8)).results ++
      (task1Run (statusOf items 1) aid (env.claim 1)).results ++
      (task2Run (statusOf items 2) aid env.addCollectionOk
        (env.claim 2)).1.results ++
      (task3Run (statusOf items 3) aid (env.claim 3)).results ++
      (task5Run (statusOf items 5) (env.claim 5)).results ++
      (task6Run (statusOf items 6) aid coin0 exp0 env.userInfo6
        (env.claim 6)).1.results ++
      (task7Run env.taskList2 (env.claim 7)).results := rfl

lemma task1Run_events_mem (st : Int) (aid : Nat) (r : Option (Int × Int))
    (e : Event) (h : e ∈ (task1Run st aid r).events) :
    e = Event.addHistory aid ∨ e = Event.claimReward 1 := by
  rw [task1Run_events] at h
  split_ifs at h <;> simp at h <;> tauto

lemma task2Run_events_mem (st : Int) (aid : Nat) (addOk : Bool)
    (r : Option (Int × Int)) (e : Event)
    (h : e ∈ (task2Run st aid addOk r).1.events) :
    e = Event.addCollection aid ∨ e = Event.claimReward 2 := by
  rw [task2Run_events] at h
  split_ifs at h <;> simp at h <;> tauto

lemma task3Run_events_mem (st : Int) (aid : Nat) (r : Option (Int × Int))
    (e : Event) (h : e ∈ (task3Run st aid r).events) :
    e = Event.likeArticle aid ∨ e = Event.claimReward 3 := by
  rw [task3Run_events] at h
  split_ifs at h <;> simp at h <;> tauto

lemma task5Run_events_mem (st : Int) (r : Option (Int × Int)) (e : Event)
    (h : e ∈ (task5Run st r).events) : e = Event.claimReward 5 := by
  rw [task5Run_events] at h
  split_ifs at h <;> simp at h
  exact h

lemma task6Run_events_mem (st : Int) (aid : Nat) (coin exp : Int)
    (ui : Option (Int × Int)) (r : Option (Int × Int)) (e : Event)
    (h : e ∈ (task6Run st aid coin exp ui r).1.events) :
    e = Event.getUserInfo ∨ e = Event.useCoin aid 10 ∨
      e = Event.claimReward 6 := by
  rw [task6Run_events] at h
  split_ifs at h <;> simp at h <;> tauto

lemma task7Run_events_mem (tl2 : Option TaskListData)
    (r : Option (Int × Int)) (e : Event)
    (h : e ∈ (task7Run tl2 r).events) :
    e = Event.getTaskList ∨ e = Event.claimReward 7 := by
  rw [task7Run_events] at h
  split_ifs at h <;> simp at h <;> tauto

lemma task8Run_events_mem (r : Option (Int × Int)) (e : Event)
    (h : e ∈ (task8Run r).events) : e = Event.claimReward 8 := by
  rw [task8Run_events] at h
  simpa using h

lemma count_zero_task1 (st : Int) (aid : Nat) (r : Option (Int × Int))
    (e : Event) (h1 : e ≠ Event.addHistory aid)
    (h2 : e ≠ Event.claimReward 1) :
    (task1Run st aid r).events.count e = 0 :=
  List.count_eq_zero.mpr
    (fun hm => by rcases task1Run_events_mem st aid r e hm with h | h <;> tauto)

lemma count_zero_task2 (st : Int) (aid : Nat) (addOk : Bool)
    (r : Option (Int × Int)) (e : Event) (h1 : e ≠ Event.addCollection aid)
    (h2 : e ≠ Event.claimReward 2) :
    (task2Run st aid addOk r).1.events.count e = 0 :=
  List.count_eq_zero.mpr
    (fun hm => by
      rcases task2Run_events_mem st aid addOk r e hm with h | h <;> tauto)

lemma count_zero_task3 (st : Int) (aid : Nat) (r : Option (Int × Int))
    (e : Event) (h1 : e ≠ Event.likeArticle aid)
    (h2 : e ≠ Event.claimReward 3) :
    (task3Run st aid r).events.count e = 0 :=
  List.count_eq_zero.mpr
    (fun hm => by rcases task3Run_events_mem st aid r e hm with h | h <;> tauto)

lemma count_zero_task5 (st : Int) (r : Option (Int × Int)) (e : Event)
    (h1 : e ≠ Event.claimReward 5) :
    (task5Run st r).events.count e = 0 :=
  List.count_eq_zero.mpr
    (fun hm => by have h := task5Run_events_mem st r e hm; tauto)

lemma count_zero_task6 (st : Int) (aid : Nat) (coin exp : Int)
    (ui : Option (Int × Int)) (r : Option (Int × Int)) (e : Event)
    (h1 : e ≠ Event.getUserInfo) (h2 : e ≠ Event.useCoin aid 10)
    (h3 : e ≠ Event.claimReward 6) :
    (task6Run st aid coin exp ui r).1.events.count e = 0 :=
  List.count_eq_zero.mpr
    (fun hm => by
      rcases task6Run_events_mem st aid coin exp ui r e hm with h | h | h <;>
        tauto)

lemma count_zero_task7 (tl2 : Option TaskListData) (r : Option (Int × Int))
    (e : Event) (h1 : e ≠ Event.getTaskList) (h2 : e ≠ Event.claimReward 7) :
    (task7Run tl2 r).events.count e = 0 :=
  List.count_eq_zero.mpr
    (fun hm => by rcases task7Run_events_mem tl2 r e hm with h | h <;> tauto)

lemma count_zero_task8 (r : Option (Int × Int)) (e : Event)
    (h1 : e ≠ Event.claimReward 8) :
    (task8Run r).events.count e = 0 :=
  List.count_eq_zero.mpr
    (fun hm => by have h := task8Run_events_mem r e hm; tauto)

lemma count_zero_cleanup (b : Bool) (aid : Nat) (e : Event)
    (h1 : e ≠ Event.delCollection aid) :
    (if b then [Event.delCollection aid] else []).count e = 0 := by
  cases b <;> simp [List.count_cons, List.count_nil]
  intro h
  exact absurd h.symm h1

lemma task1_count_claim (st : Int) (aid : Nat) (r : Option (Int × Int)) :
    (task1Run st aid r).events.count (Event.claimReward 1) =
      if st < 2 then 1 else 0 := by
  rw [task1Run_events]
  split_ifs <;> simp [List.count_append, List.count_cons]

lemma task1_count_pre (st : Int) (aid : Nat) (r : Option (Int × Int)) :
    (task1Run st aid r).events.count (Event.addHistory aid) =
      if st = 0 then 1 else 0 := by
  rw [task1Run_events]
  split_ifs with h1 h2 h3 <;>
    simp [List.count_append, List.count_cons]
  omega

lemma task2_count_claim (st : Int) (aid : Nat) (addOk : Bool)
    (r : Option (Int × Int)) :
    (task2Run st aid addOk r).1.events.count (Event.claimReward 2) =
      if st < 2 then 1 else 0 := by
  rw [task2Run_events]
  split_ifs <;> simp [List.count_append, List.count_cons]

lemma task2_count_pre (st : Int) (aid : Nat) (addOk : Bool)
    (r : Option (Int × Int)) :
    (task2Run st aid addOk r).1.events.count (Event.addCollection aid) =
      if st = 0 then 1 else 0 := by
  rw [task2Run_events]
  split_ifs with h1 h2 h3 <;>
    simp [List.count_append, List.count_cons]
  omega

lemma task3_count_claim (st : Int) (aid : Nat) (r : Option (Int × Int)) :
    (task3Run st aid r).events.count (Event.claimReward 3) =
      if st < 2 then 1 else 0 := by
  rw [task3Run_events]
  split_ifs <;> simp [List.count_append, List.count_cons]

lemma task3_count_pre (st : Int) (aid : Nat) (r : Option (Int × Int)) :
    (task3Run st aid r).events.count (Event.likeArticle aid) =
      if st = 0 then 1 else 0 := by
  rw [task3Run_events]
  split_ifs with h1 h2 h3 <;>
    simp [List.count_append, List.count_cons]
  omega

lemma task5_count_claim (st : Int) (r : Option (Int × Int)) :
    (task5Run st r).events.count (Event.claimReward 5) =
      if st < 2 then 1 else 0 := by
  rw [task5Run_events]
  split_ifs <;> simp

lemma task6_count_claim (st : Int) (aid : Nat) (coin exp : Int)
    (ui : Option (Int × Int)) (r : Option (Int × Int)) :
    (task6Run st aid coin exp ui r).1.events.count (Event.claimReward 6) =
      if st < 2 ∧ 10 ≤ fresh6 coin ui then 1 else 0 := by
  rw [task6Run_events]
  split_ifs <;> simp_all [List.count_append, List.count_cons]

lemma task6_count_coin (st : Int) (aid : Nat) (coin exp : Int)
    (ui : Option (Int × Int)) (r : Option (Int × Int)) :
    (task6Run st aid coin exp ui r).1.events.count (Event.useCoin aid 10) =
      if st = 0 ∧ 10 ≤ fresh6 coin ui then 1 else 0 := by
  rw [task6Run_events]
  split_ifs <;> simp_all [List.count_append, List.count_cons]

lemma task7_count_claim (tl2 : Option TaskListData)
    (r : Option (Int × Int)) :
    (task7Run tl2 r).events.count (Event.claimReward 7) =
      if mainStatus tl2 < 2 then 1 else 0 := by
  rw [task7Run_events]
  split_ifs <;> simp [List.count_cons]

lemma task8_count_claim (r : Option (Int × Int)) :
    (task8Run r).events.count (Event.claimReward 8) = 1 := by
  rw [task8Run_events]
  simp

lemma checkin_count_claim (items : List (Nat × Int)) (aid : Nat)
    (coin0 exp0 : Int) (env : TaskEnv) :
    ((do_checkin_tasks items aid coin0 exp0 env).trace.count
        (Event.claimReward 1) =
      if statusOf items 1 < 2 then 1 else 0) ∧
    ((do_checkin_tasks items aid coin0 exp0 env).trace.count
        (Event.claimReward 2) =
      if statusOf items 2 < 2 then 1 else 0) ∧
    ((do_checkin_tasks items aid coin0 exp0 env).trace.count
        (Event.claimReward 3) =
      if statusOf items 3 < 2 then 1 else 0) ∧
    ((do_checkin_tasks items aid coin0 exp0 env).trace.count
        (Event.claimReward 5) =
      if statusOf items 5 < 2 then 1 else 0) ∧
    ((do_checkin_tasks items aid coin0 exp0 env).trace.count
        (Event.claimReward 6) =
      if statusOf items 6 < 2 ∧ 10 ≤ fresh6 coin0 env.userInfo6 then 1
      else 0) ∧
    ((do_checkin_tasks items aid coin0 exp0 env).trace.count
        (Event.claimReward 7) =
      if mainStatus env.taskList2 < 2 then 1 else 0) ∧
    ((do_checkin_tasks items aid coin0 exp0 env).trace.count
        (Event.claimReward 8) = 1) := by
  rw [do_checkin_tasks_trace]
  simp only [List.count_append]
  refine ⟨?_, ?_, ?_, ?_, ?_, ?_, ?_⟩
  · rw [count_zero_task8 _ _ (by simp), task1_count_claim,
      count_zero_task2 _ _ _ _ _ (by simp) (by simp),
      count_zero_task3 _ _ _ _ (by simp) (by simp),
      count_zero_task5 _ _ _ (by simp),
      count_zero_task6 _ _ _ _ _ _ _ (by simp) (by simp) (by simp),
      count_zero_task7 _ _ _ (by simp) (by simp),
      count_zero_cleanup _ _ _ (by simp)]
    simp
  · rw [count_zero_task8 _ _ (by simp),
      count_zero_task1 _ _ _ _ (by simp) (by simp), task2_count_claim,
      count_zero_task3 _ _ _ _ (by simp) (by simp),
      count_zero_task5 _ _ _ (by simp),
      count_zero_task6 _ _ _ _ _ _ _ (by simp) (by simp) (by simp),
      count_zero_task7 _ _ _ (by simp) (by simp),
      count_zero_cleanup _ _ _ (by simp)]
    simp
  · rw [count_zero_task8 _ _ (by simp),
      count_zero_task1 _ _ _ _ (by simp) (by simp),
      count_zero_task2 _ _ _ _ _ (by simp) (by simp), task3_count_claim,
      count_zero_task5 _ _ _ (by simp),
      count_zero_task6 _ _ _ _ _ _ _ (by simp) (by simp) (by simp),
      count_zero_task7 _ _ _ (by simp) (by simp),
      count_zero_cleanup _ _ _ (by simp)]
    simp
  · rw [count_zero_task8 _ _ (by simp),
      count_zero_task1 _ _ _ _ (by simp) (by simp),
      count_zero_task2 _ _ _ _ _ (by simp) (by simp),
      count_zero_task3 _ _ _ _ (by simp) (by simp), task5_count_claim,
      count_zero_task6 _ _ _ _ _ _ _ (by simp) (by simp) (by simp),
      count_zero_task7 _ _ _ (by simp) (by simp),
      count_zero_cleanup _ _ _ (by simp)]
    simp
  · rw [count_zero_task8 _ _ (by simp),
      count_zero_task1 _ _ _ _ (by simp) (by simp),
      count_zero_task2 _ _ _ _ _ (by simp) (by simp),
      count_zero_task3 _ _ _ _ (by simp) (by simp),
      count_zero_task5 _ _ _ (by simp), task6_count_claim,
      count_zero_task7 _ _ _ (by simp) (by simp),
      count_zero_cleanup _ _ _ (by simp)]
    simp
  · rw [count_zero_task8 _ _ (by simp),
      count_zero_task1 _ _ _ _ (by simp) (by simp),
      count_zero_task2 _ _ _ _ _ (by simp) (by simp),
      count_zero_task3 _ _ _ _ (by simp) (by simp),
      count_zero_task5 _ _ _ (by simp),
      count_zero_task6 _ _ _ _ _ _ _ (by simp) (by simp) (by simp),
      task7_count_claim, count_zero_cleanup _ _ _ (by simp)]
    simp
  · rw [task8_count_claim,
      count_zero_task1 _ _ _ _ (by simp) (by simp),
      count_zero_task2 _ _ _ _ _ (by simp) (by simp),
      count_zero_task3 _ _ _ _ (by simp) (by simp),
      count_zero_task5 _ _ _ (by simp),
      count_zero_task6 _ _ _ _ _ _ _ (by simp) (by simp) (by simp),
      count_zero_task7 _ _ _ (by simp) (by simp),
      count_zero_cleanup _ _ _ (by simp)]
    simp

lemma checkin_count_pre (items : List (Nat × Int)) (aid : Nat)
    (coin0 exp0 : Int) (env : TaskEnv) :
    ((do_checkin_tasks items aid coin0 exp0 env).trace.count
        (Event.addHistory aid) =
      if statusOf items 1 = 0 then 1 else 0) ∧
    ((do_checkin_tasks items aid coin0 exp0 env).trace.count
        (Event.addCollection aid) =
      if statusOf items 2 = 0 then 1 else 0) ∧
    ((do_checkin_tasks items aid coin0 exp0 env).trace.count
        (Event.likeArticle aid) =
      if statusOf items 3 = 0 then 1 else 0) ∧
    ((do_checkin_tasks items aid coin0 exp0 env).trace.count
        (Event.useCoin aid 10) =
      if statusOf items 6 = 0 ∧ 10 ≤ fresh6 coin0 env.userInfo6 then 1
      else 0) ∧
    ((do_checkin_tasks items aid coin0 exp0 env).trace.count
        (Event.delCollection aid) =
      if statusOf items 2 = 0 ∧ env.addCollectionOk = true then 1 else 0) := by
  rw [do_checkin_tasks_trace]
  simp only [List.count_append]
  refine ⟨?_, ?_, ?_, ?_, ?_⟩
  · rw [count_zero_task8 _ _ (by simp), task1_count_pre,
      count_zero_task2 _ _ _ _ _ (by simp) (by simp),
      count_zero_task3 _ _ _ _ (by simp) (by simp),
      count_zero_task5 _ _ _ (by simp),
      count_zero_task6 _ _ _ _ _ _ _ (by simp) (by simp) (by simp),
      count_zero_task7 _ _ _ (by simp) (by simp),
      count_zero_cleanup _ _ _ (by simp)]
    simp
  · rw [count_zero_task8 _ _ (by simp),
      count_zero_task1 _ _ _ _ (by simp) (by simp), task2_count_pre,
      count_zero_task3 _ _ _ _ (by simp) (by simp),
      count_zero_task5 _ _ _ (by simp),
      count_zero_task6 _ _ _ _ _ _ _ (by simp) (by simp) (by simp),
      count_zero_task7 _ _ _ (by simp) (by simp),
      count_zero_cleanup _ _ _ (by simp)]
    simp
  · rw [count_zero_task8 _ _ (by simp),
      count_zero_task1 _ _ _ _ (by simp) (by simp),
      count_zero_task2 _ _ _ _ _ (by simp) (by simp), task3_count_pre,
      count_zero_task5 _ _ _ (by simp),
      count_zero_task6 _ _ _ _ _ _ _ (by simp) (by simp) (by simp),
      count_zero_task7 _ _ _ (by simp) (by simp),
      count_zero_cleanup _ _ _ (by simp)]
    simp
  · rw [count_zero_task8 _ _ (by simp),
      count_zero_task1 _ _ _ _ (by simp) (by simp),
      count_zero_task2 _ _ _ _ _ (by simp) (by simp),
      count_zero_task3 _ _ _ _ (by simp) (by simp),
      count_zero_task5 _ _ _ (by simp), task6_count_coin,
      count_zero_task7 _ _ _ (by simp) (by simp),
      count_zero_cleanup _ _ _ (by simp)]
    simp
  · rw [count_zero_task8 _ _ (by simp),
      count_zero_task1 _ _ _ _ (by simp) (by simp),
      count_zero_task2 _ _ _ _ _ (by simp) (by simp),
      count_zero_task3 _ _ _ _ (by simp) (by simp),
      count_zero_task5 _ _ _ (by simp),
      count_zero_task6 _ _ _ _ _ _ _ (by simp) (by simp) (by simp),
      count_zero_task7 _ _ _ (by simp) (by simp), task2Run_collected]
    by_cases h2 : statusOf items 2 = 0 <;>
      by_cases hok : env.addCollectionOk = true <;>
      simp [h2, hok, List.count_cons]

lemma takeWhile_append_all {α : Type} (p : α → Bool) :
    ∀ l1 l2 : List α, (∀ x ∈ l1, p x = true) →
      (l1 ++ l2).takeWhile p = l1 ++ l2.takeWhile p := by
  intro l1
  induction l1 with
  | nil => simp
  | cons a rest ih =>
    intro l2 h
    have ha := h a (by simp)
    simp only [List.cons_append, List.takeWhile_cons, ha, if_true]
    rw [ih l2 (fun x hx => h x (by simp [hx]))]

lemma dropWhile_append_all {α : Type} (p : α → Bool) :
    ∀ l1 l2 : List α, (∀ x ∈ l1, p x = true) →
      (l1 ++ l2).dropWhile p = l2.dropWhile p := by
  intro l1
  induction l1 with
  | nil => simp
  | cons a rest ih =>
    intro l2 h
    have ha := h a (by simp)
    simp only [List.cons_append, List.dropWhile_cons, ha, if_true]
    exact ih l2 (fun x hx => h x (by simp [hx]))

/-- The first seven task blocks' events, in order (everything before the
cleanup of lines 761-767). -/
def segs7 (items : List (Nat × Int)) (aid : Nat) (coin0 exp0 : Int)
    (env : TaskEnv) : List Event :=
  (task8Run (env.claim 8)).events ++
  (task1Run (statusOf items 1) aid (env.claim 1)).events ++
  (task2Run (statusOf items 2) aid env.addCollectionOk
    (env.claim 2)).1.events ++
  (task3Run (statusOf items 3) aid (env.claim 3)).events ++
  (task5Run (statusOf items 5) (env.claim 5)).events ++
  (task6Run (statusOf items 6) aid coin0 exp0 env.userInfo6
    (env.claim 6)).1.events ++
  (task7Run env.taskList2 (env.claim 7)).events

/-- The first six task blocks' events (everything before the task-7 block). -/
def segs6 (items : List (Nat × Int)) (aid : Nat) (coin0 exp0 : Int)
    (env : TaskEnv) : List Event :=
  (task8Run (env.claim 8)).events ++
  (task1Run (statusOf items 1) aid (env.claim 1)).events ++
  (task2Run (statusOf items 2) aid env.addCollectionOk
    (env.claim 2)).1.events ++
  (task3Run (statusOf items 3) aid (env.claim 3)).events ++
  (task5Run (statusOf items 5) (env.claim 5)).events ++
  (task6Run (statusOf items 6) aid coin0 exp0 env.userInfo6
    (env.claim 6)).1.events

lemma trace_eq_segs7 (items : List (Nat × Int)) (aid : Nat)
    (coin0 exp0 : Int) (env : TaskEnv) :
    (do_checkin_tasks items aid coin0 exp0 env).trace =
      segs7 items aid coin0 exp0 env ++
      ((if (task2Run (statusOf items 2) aid env.addCollectionOk
          (env.claim 2)).2 then [Event.delCollection aid] else []) ++
        [Event.getUserInfo]) := by
  rw [do_checkin_tasks_trace]
  simp [segs7, List.append_assoc]

lemma trace_eq_segs6 (items : List (Nat × Int)) (aid : Nat)
    (coin0 exp0 : Int) (env : TaskEnv) :
    (do_checkin_tasks items aid coin0 exp0 env).trace =
      segs6 items aid coin0 exp0 env ++
      ((task7Run env.taskList2 (env.claim 7)).events ++
        ((if (task2Run (statusOf items 2) aid env.addCollectionOk
            (env.claim 2)).2 then [Event.delCollection aid] else []) ++
          [Event.getUserInfo])) := by
  rw [do_checkin_tasks_trace]
  simp [segs6, List.append_assoc]

lemma segs7_mem (items : List (Nat × Int)) (aid : Nat) (coin0 exp0 : Int)
    (env : TaskEnv) (x : Event) (hx : x ∈ segs7 items aid coin0 exp0 env) :
    x = Event.claimReward 8 ∨ (x = Event.addHistory aid ∨
      x = Event.claimReward 1) ∨ (x = Event.addCollection aid ∨
      x = Event.claimReward 2) ∨ (x = Event.likeArticle aid ∨
      x = Event.claimReward 3) ∨ x = Event.claimReward 5 ∨
      (x = Event.getUserInfo ∨ x = Event.useCoin aid 10 ∨
        x = Event.claimReward 6) ∨ (x = Event.getTaskList ∨
      x = Event.claimReward 7) := by
  simp only [segs7, List.append_assoc, List.mem_append] at hx
  rcases hx with h | h | h | h | h | h | h
  · exact Or.inl (task8Run_events_mem _ _ h)
  · exact Or.inr (Or.inl (task1Run_events_mem _ _ _ _ h))
  · exact Or.inr (Or.inr (Or.inl (task2Run_events_mem _ _ _ _ _ h)))
  · exact Or.inr (Or.inr (Or.inr (Or.inl (task3Run_events_mem _ _ _ _ h))))
  · exact Or.inr (Or.inr (Or.inr (Or.inr (Or.inl
      (task5Run_events_mem _ _ _ h)))))
  · exact Or.inr (Or.inr (Or.inr (Or.inr (Or.inr (Or.inl
      (task6Run_events_mem _ _ _ _ _ _ _ h))))))
  · exact Or.inr (Or.inr (Or.inr (Or.inr (Or.inr (Or.inr
      (task7Run_events_mem _ _ _ h))))))

lemma segs6_mem (items : List (Nat × Int)) (aid : Nat) (coin0 exp0 : Int)
    (env : TaskEnv) (x : Event) (hx : x ∈ segs6 items aid coin0 exp0 env) :
    x = Event.claimReward 8 ∨ (x = Event.addHistory aid ∨
      x = Event.claimReward 1) ∨ (x = Event.addCollection aid ∨
      x = Event.claimReward 2) ∨ (x = Event.likeArticle aid ∨
      x = Event.claimReward 3) ∨ x = Event.claimReward 5 ∨
      (x = Event.getUserInfo ∨ x = Event.useCoin aid 10 ∨
        x = Event.claimReward 6) := by
  simp only [segs6, List.append_assoc, List.mem_append] at hx
  rcases hx with h | h | h | h | h | h
  · exact Or.inl (task8Run_events_mem _ _ h)
  · exact Or.inr (Or.inl (task1Run_events_mem _ _ _ _ h))
  · exact Or.inr (Or.inr (Or.inl (task2Run_events_mem _ _ _ _ _ h)))
  · exact Or.inr (Or.inr (Or.inr (Or.inl (task3Run_events_mem _ _ _ _ h))))
  · exact Or.inr (Or.inr (Or.inr (Or.inr (Or.inl
      (task5Run_events_mem _ _ _ h)))))
  · exact Or.inr (Or.inr (Or.inr (Or.inr (Or.inr
      (task6Run_events_mem _ _ _ _ _ _ _ h)))))

lemma segs7_no_del (items : List (Nat × Int)) (aid : Nat) (coin0 exp0 : Int)
    (env : TaskEnv) (x : Event) (hx : x ∈ segs7 items aid coin0 exp0 env) :
    (!(x == Event.delCollection aid)) = true := by
  rcases segs7_mem items aid coin0 exp0 env x hx with
    h | (h | h) | (h | h) | (h | h) | h | (h | h | h) | (h | h) <;> simp [h]

lemma segs6_no_tl (items : List (Nat × Int)) (aid : Nat) (coin0 exp0 : Int)
    (env : TaskEnv) (x : Event) (hx : x ∈ segs6 items aid coin0 exp0 env) :
    (!(x == Event.getTaskList)) = true := by
  rcases segs6_mem items aid coin0 exp0 env x hx with
    h | (h | h) | (h | h) | (h | h) | h | (h | h | h) <;> simp [h]

lemma segs6_no_claim7 (items : List (Nat × Int)) (aid : Nat)
    (coin0 exp0 : Int) (env : TaskEnv) :
    Event.claimReward 7 ∉ segs6 items aid coin0 exp0 env := by
  intro hx
  rcases segs6_mem items aid coin0 exp0 env _ hx with
    h | (h | h) | (h | h) | (h | h) | h | (h | h | h) <;> simp at h

lemma task8Run_results_id (r : Option (Int × Int)) :
    ∀ x ∈ (task8Run r).results, x.id = 8 := by
  intro x hx
  rcases r with _ | ⟨c, e⟩ <;> simp [task8Run] at hx <;> simp [hx]

lemma task1Run_results_id (st : Int) (aid : Nat) (r : Option (Int × Int)) :
    ∀ x ∈ (task1Run st aid r).results, x.id = 1 := by
  intro x hx
  rcases r with _ | ⟨c, e⟩ <;> by_cases h : st < 2 <;>
    simp [task1Run, h] at hx <;> simp [hx]

lemma task2Run_results_id (st : Int) (aid : Nat) (addOk : Bool)
    (r : Option (Int × Int)) :
    ∀ x ∈ (task2Run st aid addOk r).1.results, x.id = 2 := by
  intro x hx
  rcases r with _ | ⟨c, e⟩ <;> by_cases h : st < 2 <;>
    simp [task2Run, h] at hx <;> simp [hx]

lemma task3Run_results_id (st : Int) (aid : Nat) (r : Option (Int × Int)) :
    ∀ x ∈ (task3Run st aid r).results, x.id = 3 := by
  intro x hx
  rcases r with _ | ⟨c, e⟩ <;> by_cases h : st < 2 <;>
    simp [task3Run, h] at hx <;> simp [hx]

lemma task5Run_results_id (st : Int) (r : Option (Int × Int)) :
    ∀ x ∈ (task5Run st r).results, x.id = 5 := by
  intro x hx
  rcases r with _ | ⟨c, e⟩ <;> by_cases h : st < 2 <;>
    simp [task5Run, h] at hx <;> simp [hx]

lemma task6Run_results_id (st : Int) (aid : Nat) (coin exp : Int)
    (ui : Option (Int × Int)) (r : Option (Int × Int)) :
    ∀ x ∈ (task6Run st aid coin exp ui r).1.results, x.id = 6 := by
  intro x hx
  rw [task6Run_results] at hx
  split_ifs at hx <;> rcases r with _ | ⟨c, e⟩ <;> simp at hx <;> simp [hx]

lemma task7Run_results_id (tl2 : Option TaskListData)
    (r : Option (Int × Int)) :
    ∀ x ∈ (task7Run tl2 r).results, x.id = 7 := by
  intro x hx
  rcases r with _ | ⟨c, e⟩ <;> by_cases h : mainStatus tl2 < 2 <;>
    simp [task7Run, h] at hx <;> simp [hx]

lemma filter_id_nil {l : List TaskResult} {k : Nat}
    (hid : ∀ x ∈ l, x.id = k) (t : Nat) (ht : t ≠ k) :
    l.filter (fun x => x.id == t) = [] := by
  rw [List.filter_eq_nil_iff]
  intro a ha
  have hk := hid a ha
  simp [hk]
  omega

/-- C5 amended: in a run reaching the cleanup, the unfavorite call
(del_collection) occurs — after every claim — if and only if the favorite
task's status was incomplete AND the add_collection call succeeded (a
fired-but-failed favorite prerequisite triggers no cleanup). -/
theorem checkin_unfavorite_iff (items : List (Nat × Int)) (aid : Nat)
    (coin0 exp0 : Int) (env : TaskEnv) :
    (Event.delCollection aid ∈
        (do_checkin_tasks items aid coin0 exp0 env).trace ↔
      (statusOf items 2 = 0 ∧ env.addCollectionOk = true)) ∧
    (∀ t, Event.claimReward t ∈
        (do_checkin_tasks items aid coin0 exp0 env).trace →
      Event.claimReward t ∈ beforeFirst
        (do_checkin_tasks items aid coin0 exp0 env).trace
        (Event.delCollection aid)) := by
  have hdel := (checkin_count_pre items aid coin0 exp0 env).2.2.2.2
  constructor
  · constructor
    · intro hm
      by_contra hc
      rw [if_neg hc] at hdel
      exact (List.count_eq_zero.mp hdel) hm
    · intro hc
      rw [if_pos hc] at hdel
      by_contra hm
      have h0 := List.count_eq_zero.mpr hm
      omega
  · intro t hm
    rw [trace_eq_segs7] at hm
    rw [beforeFirst, trace_eq_segs7,
      takeWhile_append_all _ _ _ (segs7_no_del items aid coin0 exp0 env)]
    rcases List.mem_append.mp hm with h | h
    · exact List.mem_append_left _ h
    · exfalso
      rcases List.mem_append.mp h with h2 | h2
      · split_ifs at h2 <;> simp at h2
      · simp at h2

/-- C5 counterexample: favorite-task status incomplete but the
add_collection call fails; the prerequisite fired, yet no unfavorite
occurs during cleanup. -/
theorem checkin_unfavorite_cex :
    statusOf [(2, 0)] 2 = 0 ∧
    Event.addCollection 99 ∈
      (do_checkin_tasks [(2, 0)] 99 0 0
        { claim := fun _ => none, addHistoryOk := true,
          addCollectionOk := false, likeOk := true, useCoinOk := true,
          userInfo6 := none, taskList2 := none,
          userInfoFinal := none }).trace ∧
    Event.delCollection 99 ∉
      (do_checkin_tasks [(2, 0)] 99 0 0
        { claim := fun _ => none, addHistoryOk := true,
          addCollectionOk := false, likeOk := true, useCoinOk := true,
          userInfo6 := none, taskList2 := none,
          userInfoFinal := none }).trace := by
  refine ⟨by decide, by decide, by decide⟩

lemma trace_dropWhile_tl (items : List (Nat × Int)) (aid : Nat)
    (coin0 exp0 : Int) (env : TaskEnv) :
    (do_checkin_tasks items aid coin0 exp0 env).trace.dropWhile
        (fun x => !(x == Event.getTaskList)) =
      (task7Run env.taskList2 (env.claim 7)).events ++
      ((if (task2Run (statusOf items 2) aid env.addCollectionOk
          (env.claim 2)).2 then [Event.delCollection aid] else []) ++
        [Event.getUserInfo]) := by
  rw [trace_eq_segs6,
    dropWhile_append_all _ _ _ (segs6_no_tl items aid coin0 exp0 env),
    task7Run_events]
  split_ifs <;> simp [List.dropWhile_cons]

/-- C4: the aggregate task (7) is claimed strictly after the six other
task attempts — all their claims lie before the second task-list fetch and
claim 7 only after it — its eligibility is exactly the overall status of
that re-fetched list, and its recorded result does not depend on the
initial snapshot. -/
theorem checkin_aggregate_last (items items2 : List (Nat × Int)) (aid : Nat)
    (coin0 exp0 : Int) (env : TaskEnv) :
    (∀ t, t ≠ 7 → Event.claimReward t ∉
      ((do_checkin_tasks items aid coin0 exp0 env).trace.dropWhile
        (fun x => !(x == Event.getTaskList)))) ∧
    (Event.claimReward 7 ∉
      ((do_checkin_tasks items aid coin0 exp0 env).trace.takeWhile
        (fun x => !(x == Event.getTaskList)))) ∧
    (Event.claimReward 7 ∈
        (do_checkin_tasks items aid coin0 exp0 env).trace ↔
      mainStatus env.taskList2 < 2) ∧
    ((do_checkin_tasks items aid coin0 exp0 env).results.filter
        (fun x => x.id == 7) =
      (do_checkin_tasks items2 aid coin0 exp0 env).results.filter
        (fun x => x.id == 7)) := by
  refine ⟨?_, ?_, ?_, ?_⟩
  · intro t ht hm
    rw [trace_dropWhile_tl] at hm
    rcases List.mem_append.mp hm with h | h
    · rcases task7Run_events_mem _ _ _ h with h2 | h2
      · simp at h2
      · simp at h2
        exact ht h2
    · rcases List.mem_append.mp h with h2 | h2
      · split_ifs at h2 <;> simp at h2
      · simp at h2
  · intro hm
    rw [trace_eq_segs6,
      takeWhile_append_all _ _ _ (segs6_no_tl items aid coin0 exp0 env)]
      at hm
    rcases List.mem_append.mp hm with h | h
    · exact segs6_no_claim7 items aid coin0 exp0 env h
    · rw [task7Run_events] at h
      split_ifs at h <;> simp [List.takeWhile_cons] at h
  · have h7 := (checkin_count_claim items aid coin0 exp0 env).2.2.2.2.2.1
    constructor
    · intro hm
      by_contra hc
      rw [if_neg hc] at h7
      exact (List.count_eq_zero.mp h7) hm
    · intro hc
      rw [if_pos hc] at h7
      by_contra hm
      have h0 := List.count_eq_zero.mpr hm
      omega
  · rw [do_checkin_tasks_results, do_checkin_tasks_results]
    simp only [List.filter_append]
    rw [filter_id_nil (task8Run_results_id (env.claim 8)) 7 (by omega),
      filter_id_nil (task1Run_results_id (statusOf items 1) aid
        (env.claim 1)) 7 (by omega),
      filter_id_nil (task1Run_results_id (statusOf items2 1) aid
        (env.claim 1)) 7 (by omega),
      filter_id_nil (task2Run_results_id (statusOf items 2) aid
        env.addCollectionOk (env.claim 2)) 7 (by omega),
      filter_id_nil (task2Run_results_id (statusOf items2 2) aid
        env.addCollectionOk (env.claim 2)) 7 (by omega),
      filter_id_nil (task3Run_results_id (statusOf items 3) aid
        (env.claim 3)) 7 (by omega),
      filter_id_nil (task3Run_results_id (statusOf items2 3) aid
        (env.claim 3)) 7 (by omega),
      filter_id_nil (task5Run_results_id (statusOf items 5)
        (env.claim 5)) 7 (by omega),
      filter_id_nil (task5Run_results_id (statusOf items2 5)
        (env.claim 5)) 7 (by omega),
      filter_id_nil (task6Run_results_id (statusOf items 6) aid coin0 exp0
        env.userInfo6 (env.claim 6)) 7 (by omega),
      filter_id_nil (task6Run_results_id (statusOf items2 6) aid coin0 exp0
        env.userInfo6 (env.claim 6)) 7 (by omega)]

/-- C3: with the coin task not yet claimed, the block starts by re-fetching
user info; when the fresh balance is below 10 the outcome is "skip" and
neither use_coin nor claim happens; when it is at least 10 the claim
happens, with use_coin exactly when the status was incomplete. -/
theorem checkin_coin_gate (items : List (Nat × Int)) (aid : Nat)
    (coin0 exp0 : Int) (env : TaskEnv) (b eb : Int)
    (hst : statusOf items 6 < 2) (hui : env.userInfo6 = some (b, eb)) :
    ((task6Run (statusOf items 6) aid coin0 exp0 env.userInfo6
        (env.claim 6)).1.events.head? = some Event.getUserInfo) ∧
    (b < 10 →
      (⟨6, 0, 0, "skip"⟩ : TaskResult) ∈
        (do_checkin_tasks items aid coin0 exp0 env).results ∧
      (do_checkin_tasks items aid coin0 exp0 env).trace.count
        (Event.useCoin aid 10) = 0 ∧
      (do_checkin_tasks items aid coin0 exp0 env).trace.count
        (Event.claimReward 6) = 0) ∧
    (10 ≤ b →
      (do_checkin_tasks items aid coin0 exp0 env).trace.count
        (Event.claimReward 6) = 1 ∧
      (statusOf items 6 = 0 →
        (do_checkin_tasks items aid coin0 exp0 env).trace.count
          (Event.useCoin aid 10) = 1) ∧
      (¬ statusOf items 6 = 0 →
        (do_checkin_tasks items aid coin0 exp0 env).trace.count
          (Event.useCoin aid 10) = 0)) := by
  have hf : fresh6 coin0 env.userInfo6 = b := by rw [hui]; rfl
  have hcoin := (checkin_count_pre items aid coin0 exp0 env).2.2.2.1
  have hclaim := (checkin_count_claim items aid coin0 exp0 env).2.2.2.2.1
  rw [hf] at hcoin hclaim
  refine ⟨?_, ?_, ?_⟩
  · rw [task6Run_events, if_pos hst]
    split_ifs <;> rfl
  · intro hb
    refine ⟨?_, ?_, ?_⟩
    · rw [do_checkin_tasks_results]
      refine List.mem_append_left _ (List.mem_append_right _ ?_)
      rw [task6Run_results, if_pos hst, hf, if_neg (by omega)]
      simp
    · rw [hcoin, if_neg (by omega)]
    · rw [hclaim, if_neg (by omega)]
  · intro hb
    refine ⟨?_, ?_, ?_⟩
    · rw [hclaim, if_pos ⟨hst, hb⟩]
    · intro h0
      rw [hcoin, if_pos ⟨h0, hb⟩]
    · intro h0
      rw [hcoin, if_neg (by tauto)]

/-- C3 witness: task 6 incomplete, fresh balance 5 (below the threshold):
the block re-fetches first, records "skip", and neither spends nor
claims. -/
theorem checkin_coin_gate_w :
    (⟨6, 0, 0, "skip"⟩ : TaskResult) ∈
      (do_checkin_tasks [(6, 0)] 99 0 0
        { claim := fun _ => none, addHistoryOk := true,
          addCollectionOk := true, likeOk := true, useCoinOk := true,
          userInfo6 := some (5, 0), taskList2 := none,
          userInfoFinal := none }).results ∧
    (do_checkin_tasks [(6, 0)] 99 0 0
      { claim := fun _ => none, addHistoryOk := true,
        addCollectionOk := true, likeOk := true, useCoinOk := true,
        userInfo6 := some (5, 0), taskList2 := none,
        userInfoFinal := none }).trace.count (Event.useCoin 99 10) = 0 ∧
    (do_checkin_tasks [(6, 0)] 99 0 0
      { claim := fun _ => none, addHistoryOk := true,
        addCollectionOk := true, likeOk := true, useCoinOk := true,
        userInfo6 := some (5, 0), taskList2 := none,
        userInfoFinal := none }).trace.count (Event.claimReward 6) = 0 := by
  exact (checkin_coin_gate [(6, 0)] 99 0 0
    { claim := fun _ => none, addHistoryOk := true,
      addCollectionOk := true, likeOk := true, useCoinOk := true,
      userInfo6 := some (5, 0), taskList2 := none,
      userInfoFinal := none } 5 0 (by decide) rfl).2.1 (by norm_num)

/-- C2 amended: a successful claim always records a "new" entry carrying
the returned coin and experience deltas; but when the claim fails after a
due (status-incomplete) prerequisite, only the coin task (6) records a
"fail" outcome — tasks 1, 2 and 3 record no entry at all. -/
theorem checkin_claim_outcomes (items : List (Nat × Int)) (aid : Nat)
    (coin0 exp0 : Int) (env : TaskEnv) :
    (statusOf items 1 = 0 →
      (∀ c e, env.claim 1 = some (c, e) →
        (⟨1, c, e, "new"⟩ : TaskResult) ∈
          (do_checkin_tasks items aid coin0 exp0 env).results) ∧
      (env.claim 1 = none →
        (do_checkin_tasks items aid coin0 exp0 env).results.filter
          (fun x => x.id == 1) = [])) ∧
    (statusOf items 2 = 0 →
      (∀ c e, env.claim 2 = some (c, e) →
        (⟨2, c, e, "new"⟩ : TaskResult) ∈
          (do_checkin_tasks items aid coin0 exp0 env).results) ∧
      (env.claim 2 = none →
        (do_checkin_tasks items aid coin0 exp0 env).results.filter
          (fun x => x.id == 2) = [])) ∧
    (statusOf items 3 = 0 →
      (∀ c e, env.claim 3 = some (c, e) →
        (⟨3, c, e, "new"⟩ : TaskResult) ∈
          (do_checkin_tasks items aid coin0 exp0 env).results) ∧
      (env.claim 3 = none →
        (do_checkin_tasks items aid coin0 exp0 env).results.filter
          (fun x => x.id == 3) = [])) ∧
    (statusOf items 6 = 0 → ∀ b eb, env.userInfo6 = some (b, eb) → 10 ≤ b →
      (∀ c e, env.claim 6 = some (c, e) →
        (⟨6, c, e, "new"⟩ : TaskResult) ∈
          (do_checkin_tasks items aid coin0 exp0 env).results) ∧
      (env.claim 6 = none →
        (⟨6, 0, 0, "fail"⟩ : TaskResult) ∈
          (do_checkin_tasks items aid coin0 exp0 env).results)) := by
  refine ⟨?_, ?_, ?_, ?_⟩
  · intro h0
    have hlt : statusOf items 1 < 2 := by omega
    constructor
    · intro c e hr
      rw [do_checkin_tasks_results]
      refine List.mem_append_left _ (List.mem_append_left _
        (List.mem_append_left _ (List.mem_append_left _
          (List.mem_append_left _ (List.mem_append_right _ ?_)))))
      rw [hr]
      simp [task1Run, hlt]
    · intro hr
      rw [do_checkin_tasks_results]
      simp only [List.filter_append]
      rw [filter_id_nil (task8Run_results_id (env.claim 8)) 1 (by omega),
        filter_id_nil (task2Run_results_id (statusOf items 2) aid
          env.addCollectionOk (env.claim 2)) 1 (by omega),
        filter_id_nil (task3Run_results_id (statusOf items 3) aid
          (env.claim 3)) 1 (by omega),
        filter_id_nil (task5Run_results_id (statusOf items 5)
          (env.claim 5)) 1 (by omega),
        filter_id_nil (task6Run_results_id (statusOf items 6) aid coin0 exp0
          env.userInfo6 (env.claim 6)) 1 (by omega),
        filter_id_nil (task7Run_results_id env.taskList2
          (env.claim 7)) 1 (by omega), hr]
      simp [task1Run, hlt]
  · intro h0
    have hlt : statusOf items 2 < 2 := by omega
    constructor
    · intro c e hr
      rw [do_checkin_tasks_results]
      refine List.mem_append_left _ (List.mem_append_left _
        (List.mem_append_left _ (List.mem_append_left _
          (List.mem_append_right _ ?_))))
      rw [hr]
      simp [task2Run, hlt]
    · intro hr
      rw [do_checkin_tasks_results]
      simp only [List.filter_append]
      rw [filter_id_nil (task8Run_results_id (env.claim 8)) 2 (by omega),
        filter_id_nil (task1Run_results_id (statusOf items 1) aid
          (env.claim 1)) 2 (by omega),
        filter_id_nil (task3Run_results_id (statusOf items 3) aid
          (env.claim 3)) 2 (by omega),
        filter_id_nil (task5Run_results_id (statusOf items 5)
          (env.claim 5)) 2 (by omega),
        filter_id_nil (task6Run_results_id (statusOf items 6) aid coin0 exp0
          env.userInfo6 (env.claim 6)) 2 (by omega),
        filter_id_nil (task7Run_results_id env.taskList2
          (env.claim 7)) 2 (by omega), hr]
      simp [task2Run, hlt]
  · intro h0
    have hlt : statusOf items 3 < 2 := by omega
    constructor
    · intro c e hr
      rw [do_checkin_tasks_results]
      refine List.mem_append_left _ (List.mem_append_left _
        (List.mem_append_left _ (List.mem_append_right _ ?_)))
      rw [hr]
      simp [task3Run, hlt]
    · intro hr
      rw [do_checkin_tasks_results]
      simp only [List.filter_append]
      rw [filter_id_nil (task8Run_results_id (env.claim 8)) 3 (by omega),
        filter_id_nil (task1Run_results_id (statusOf items 1) aid
          (env.claim 1)) 3 (by omega),
        filter_id_nil (task2Run_results_id (statusOf items 2) aid
          env.addCollectionOk (env.claim 2)) 3 (by omega),
        filter_id_nil (task5Run_results_id (statusOf items 5)
          (env.claim 5)) 3 (by omega),
        filter_id_nil (task6Run_results_id (statusOf items 6) aid coin0 exp0
          env.userInfo6 (env.claim 6)) 3 (by omega),
        filter_id_nil (task7Run_results_id env.taskList2
          (env.claim 7)) 3 (by omega), hr]
      simp [task3Run, hlt]
  · intro h0 b eb hui hb
    have hlt : statusOf items 6 < 2 := by omega
    have hf : fresh6 coin0 env.userInfo6 = b := by rw [hui]; rfl
    constructor
    · intro c e hr
      rw [do_checkin_tasks_results]
      refine List.mem_append_left _ (List.mem_append_right _ ?_)
      rw [task6Run_results, if_pos hlt, hf, if_pos hb, hr]
      simp
    · intro hr
      rw [do_checkin_tasks_results]
      refine List.mem_append_left _ (List.mem_append_right _ ?_)
      rw [task6Run_results, if_pos hlt, hf, if_pos hb, hr]
      simp

/-- C2 counterexample: task 1 incomplete, its prerequisite performed, the
claim attempted and failed — yet no outcome at all (in particular no
'failed' entry) is recorded for task 1. -/
theorem checkin_claim_outcomes_cex :
    Event.addHistory 99 ∈
      (do_checkin_tasks [(1, 0)] 99 0 0
        { claim := fun _ => none, addHistoryOk := true,
          addCollectionOk := true, likeOk := true, useCoinOk := true,
          userInfo6 := none, taskList2 := none,
          userInfoFinal := none }).trace ∧
    (do_checkin_tasks [(1, 0)] 99 0 0
      { claim := fun _ => none, addHistoryOk := true,
        addCollectionOk := true, likeOk := true, useCoinOk := true,
        userInfo6 := none, taskList2 := none,
        userInfoFinal := none }).trace.count (Event.claimReward 1) = 1 ∧
    (do_checkin_tasks [(1, 0)] 99 0 0
      { claim := fun _ => none, addHistoryOk := true,
        addCollectionOk := true, likeOk := true, useCoinOk := true,
        userInfo6 := none, taskList2 := none,
        userInfoFinal := none }).results.filter (fun x => x.id == 1) = [] := by
  refine ⟨by decide, by decide, by decide⟩

/-- C1 amended: the snapshot gating holds as stated for tasks 1, 2 and 3
(claimed: no prerequisite and no claim; incomplete: exactly one
prerequisite immediately followed by exactly one claim; claimable: no
prerequisite, exactly one claim). Task 5 is status-gated the same way but
has no prerequisite action at all; task 8's claim is always attempted
regardless of the snapshot; tasks 6 and 7 carry extra gating (balance
check; re-fetched overall status). -/
theorem checkin_task_gating (items : List (Nat × Int)) (aid : Nat)
    (coin0 exp0 : Int) (env : TaskEnv) :
    (statusOf items 1 = 2 →
      (do_checkin_tasks items aid coin0 exp0 env).trace.count
        (Event.addHistory aid) = 0 ∧
      (do_checkin_tasks items aid coin0 exp0 env).trace.count
        (Event.claimReward 1) = 0) ∧
    (statusOf items 1 = 0 →
      (do_checkin_tasks items aid coin0 exp0 env).trace.count
        (Event.addHistory aid) = 1 ∧
      (do_checkin_tasks items aid coin0 exp0 env).trace.count
        (Event.claimReward 1) = 1 ∧
      (task1Run (statusOf items 1) aid (env.claim 1)).events =
        [Event.addHistory aid, Event.claimReward 1]) ∧
    (statusOf items 1 = 1 →
      (do_checkin_tasks items aid coin0 exp0 env).trace.count
        (Event.addHistory aid) = 0 ∧
      (do_checkin_tasks items aid coin0 exp0 env).trace.count
        (Event.claimReward 1) = 1) ∧
    (statusOf items 2 = 2 →
      (do_checkin_tasks items aid coin0 exp0 env).trace.count
        (Event.addCollection aid) = 0 ∧
      (do_checkin_tasks items aid coin0 exp0 env).trace.count
        (Event.claimReward 2) = 0) ∧
    (statusOf items 2 = 0 →
      (do_checkin_tasks items aid coin0 exp0 env).trace.count
        (Event.addCollection aid) = 1 ∧
      (do_checkin_tasks items aid coin0 exp0 env).trace.count
        (Event.claimReward 2) = 1 ∧
      (task2Run (statusOf items 2) aid env.addCollectionOk
          (env.claim 2)).1.events =
        [Event.addCollection aid, Event.claimReward 2]) ∧
    (statusOf items 2 = 1 →
      (do_checkin_tasks items aid coin0 exp0 env).trace.count
        (Event.addCollection aid) = 0 ∧
      (do_checkin_tasks items aid coin0 exp0 env).trace.count
        (Event.claimReward 2) = 1) ∧
    (statusOf items 3 = 2 →
      (do_checkin_tasks items aid coin0 exp0 env).trace.count
        (Event.likeArticle aid) = 0 ∧
      (do_checkin_tasks items aid coin0 exp0 env).trace.count
        (Event.claimReward 3) = 0) ∧
    (statusOf items 3 = 0 →
      (do_checkin_tasks items aid coin0 exp0 env).trace.count
        (Event.likeArticle aid) = 1 ∧
      (do_checkin_tasks items aid coin0 exp0 env).trace.count
        (Event.claimReward 3) = 1 ∧
      (task3Run (statusOf items 3) aid (env.claim 3)).events =
        [Event.likeArticle aid, Event.claimReward 3]) ∧
    (statusOf items 3 = 1 →
      (do_checkin_tasks items aid coin0 exp0 env).trace.count
        (Event.likeArticle aid) = 0 ∧
      (do_checkin_tasks items aid coin0 exp0 env).trace.count
        (Event.claimReward 3) = 1) ∧
    (statusOf items 5 = 2 →
      (do_checkin_tasks items aid coin0 exp0 env).trace.count
        (Event.claimReward 5) = 0) ∧
    (statusOf items 5 = 0 ∨ statusOf items 5 = 1 →
      (do_checkin_tasks items aid coin0 exp0 env).trace.count
        (Event.claimReward 5) = 1) ∧
    ((do_checkin_tasks items aid coin0 exp0 env).trace.count
      (Event.claimReward 8) = 1) := by
  obtain ⟨hc1, hc2, hc3, hc5, hc6, hc7, hc8⟩ :=
    checkin_count_claim items aid coin0 exp0 env
  obtain ⟨hp1, hp2, hp3, hp6, hpd⟩ :=
    checkin_count_pre items aid coin0 exp0 env
  refine ⟨?_, ?_, ?_, ?_, ?_, ?_, ?_, ?_, ?_, ?_, ?_, ?_⟩
  · intro h
    exact ⟨by rw [hp1, if_neg (by omega)], by rw [hc1, if_neg (by omega)]⟩
  · intro h
    refine ⟨by rw [hp1, if_pos h], by rw [hc1, if_pos (by omega)], ?_⟩
    rw [task1Run_events, if_pos (by omega), if_pos h]
    rfl
  · intro h
    exact ⟨by rw [hp1, if_neg (by omega)], by rw [hc1, if_pos (by omega)]⟩
  · intro h
    exact ⟨by rw [hp2, if_neg (by omega)], by rw [hc2, if_neg (by omega)]⟩
  · intro h
    refine ⟨by rw [hp2, if_pos h], by rw [hc2, if_pos (by omega)], ?_⟩
    rw [task2Run_events, if_pos (by omega), if_pos h]
    rfl
  · intro h
    exact ⟨by rw [hp2, if_neg (by omega)], by rw [hc2, if_pos (by omega)]⟩
  · intro h
    exact ⟨by rw [hp3, if_neg (by omega)], by rw [hc3, if_neg (by omega)]⟩
  · intro h
    refine ⟨by rw [hp3, if_pos h], by rw [hc3, if_pos (by omega)], ?_⟩
    rw [task3Run_events, if_pos (by omega), if_pos h]
    rfl
  · intro h
    exact ⟨by rw [hp3, if_neg (by omega)], by rw [hc3, if_pos (by omega)]⟩
  · intro h
    rw [hc5, if_neg (by omega)]
  · intro h
    rw [hc5, if_pos (by omega)]
  · exact hc8

/-- C1 counterexample: every task claimed in the snapshot, yet the claim
call for task 8 still occurs — the login task's claim is unconditional. -/
theorem checkin_task_gating_cex :
    statusOf [(8, 2), (1, 2), (2, 2), (3, 2), (5, 2), (6, 2), (7, 2)] 8 =
      2 ∧
    (do_checkin_tasks [(8, 2), (1, 2), (2, 2), (3, 2), (5, 2), (6, 2),
        (7, 2)] 99 0 0
      { claim := fun _ => none, addHistoryOk := true,
        addCollectionOk := true, likeOk := true, useCoinOk := true,
        userInfo6 := none, taskList2 := none,
        userInfoFinal := none }).trace.count (Event.claimReward 8) = 1 := by
  refine ⟨by decide, by decide⟩
